import Mathlib

/-!
Verification of the query-parameter normalization layer and the typed
exception-mapping layer of the `wp-python` WordPress REST client.

The Python sources embedded here:
  * `src/wp_python/utils/helpers.py`   (enum/string normalization utilities)
  * `src/wp_python/utils/query.py`     (the fluent `QueryBuilder`)
  * `src/wp_python/core/exceptions.py` (the `WordPressError` hierarchy, its
    `__str__`, and `create_exception_from_response`)

Python runtime values are modelled by small inductive types; the dynamic
`hasattr(item, "value")` duck typing is modelled by the constructor shape
(enum members are the only accepted inputs carrying a `.value` projection);
Python truthiness is an explicit `truthy` function; an expression that would
raise at runtime is an `Except.error`.  Dict object identity, which matters
only for the copy semantics of `QueryBuilder.build`, is modelled by an
explicit heap of dict objects.
-/

namespace WpPython

/-- A filter value accepted by the normalization helpers: a raw string, an
int-like primitive, or an enum member (e.g. `PostStatus.PUBLISH`) carrying
its canonical string `.value`.  The `venum` fields are the enum class name,
the member name, and the canonical string value. -/
inductive FilterValue where
  | vstr (s : String)
  | vint (n : Int)
  | venum (enumName memberName value : String)
deriving DecidableEq, Repr

/-- Python `hasattr(item, "value")` over the accepted input shapes: among
`str`, `int` and enum members, only enum members expose `.value`. -/
def hasattrValue : FilterValue → Bool
  | .venum _ _ _ => true
  | _ => false

/-- Python `str(item)` over the accepted input shapes.  Note that `str` of an
enum member renders as `ClassName.MEMBER`; that branch is unreachable under
the `hasattr` guard. -/
def pyStrFV : FilterValue → String
  | .vstr s => s
  | .vint n => toString n
  | .venum en mn _ => en ++ "." ++ mn

/-- Model of `helpers.convert_single_enum_or_string`: if the item has a
`.value` attribute return it, otherwise return `str(item)`. -/
def convert_single_enum_or_string (item : FilterValue) : String :=
  match item with
  | .venum _ _ v => v
  | other => pyStrFV other

/-- Model of `helpers.convert_enum_or_string_list`: the source loop appends,
per item, `item.value` when the item has a `.value` attribute and
`str(item)` otherwise. -/
def convert_enum_or_string_list : List FilterValue → List String
  | [] => []
  | item :: rest =>
      (match item with
       | .venum _ _ v => v
       | other => pyStrFV other) :: convert_enum_or_string_list rest

/-- Model of `helpers.build_comma_separated_param`: join the converted list
with a comma. -/
def build_comma_separated_param (items : List FilterValue) : String :=
  String.intercalate "," (convert_enum_or_string_list items)

/-- A Python runtime value as seen by `core/exceptions.py`: a string, an
int, `None`, or a dict with string keys.  This is enough to express response
bodies that are mappings, null, or not mappings at all. -/
inductive PyObj where
  | pstr (s : String)
  | pint (n : Int)
  | pnone
  | pdict (entries : List (String × PyObj))

/-- Python truthiness (`bool(x)`) over the modelled values: the empty
string, zero, `None` and the empty dict are falsy. -/
def truthy : PyObj → Bool
  | .pstr s => s != ""
  | .pint n => n != 0
  | .pnone => false
  | .pdict entries => !entries.isEmpty

/-- Python `d.get(key, default)` on a dict (keys of a dict are unique, so
the first match is the match). -/
def dictGet (entries : List (String × PyObj)) (key : String) (default : PyObj) : PyObj :=
  (entries.lookup key).getD default

mutual

/-- Python `repr` of the modelled values.  Note `repr(dict)` renders entries
as quoted key, colon, value, joined by commas inside braces. -/
def reprObj : PyObj → String
  | .pstr s => "\x27" ++ s ++ "\x27"
  | .pint n => toString n
  | .pnone => "None"
  | .pdict entries => "\x7b" ++ reprEntries entries ++ "\x7d"

/-- Rendering of the entry list of a dict for `reprObj`. -/
def reprEntries : List (String × PyObj) → String
  | [] => ""
  | [(k, v)] => "\x27" ++ k ++ "\x27: " ++ reprObj v
  | (k, v) :: rest => "\x27" ++ k ++ "\x27: " ++ reprObj v ++ ", " ++ reprEntries rest

end

/-- Python `str` of the modelled values: identity on strings, `repr`
otherwise (as for `int`, `None` and `dict`). -/
def strObj : PyObj → String
  | .pstr s => s
  | o => reprObj o

/-- The exception class of a `WordPressError` instance, i.e. the
discriminated ErrorKind.  The base class `wordPressError` is the Generic
kind. -/
inductive ErrKind where
  | wordPressError
  | authenticationError
  | permissionError
  | notFoundError
  | validationError
  | rateLimitError
  | serverError
  | networkError
deriving DecidableEq, Repr

/-- The state of a `WordPressError` instance after `__init__`. -/
structure WordPressError where
  kind : ErrKind
  message : PyObj
  code : PyObj
  status_code : PyObj
  data : PyObj
  endpoint : PyObj
  method : PyObj

/-- Model of `WordPressError.__init__`: all fields are stored as passed
except `data`, which the source normalizes (a falsy `data` argument becomes
the empty dict). -/
def WordPressError.init (kind : ErrKind)
    (message code status_code data endpoint method : PyObj) : WordPressError :=
  { kind := kind, message := message, code := code, status_code := status_code,
    data := if truthy data then data else .pdict [],
    endpoint := endpoint, method := method }

/-- A Python exception escaping from the classifier itself: calling `.get`
on a value that is not a mapping (e.g. `None`) raises `AttributeError`. -/
inductive PyExn where
  | attributeError
deriving DecidableEq, Repr

/-- Model of `exceptions.create_exception_from_response`: extracts
`message`, `code` and `data` from the response body via `.get` and
dispatches on the status code through the if/elif chain of the source.  On a
body that is not a mapping, the very first `.get` raises `AttributeError`. -/
def create_exception_from_response (status_code : Int) (response_data : PyObj) :
    Except PyExn WordPressError :=
  match response_data with
  | .pdict entries =>
      let message := dictGet entries "message" (.pstr "未知错误")
      let code := dictGet entries "code" .pnone
      let data := dictGet entries "data" (.pdict [])
      if status_code = 401 then
        .ok (WordPressError.init .authenticationError message code (.pint status_code) data .pnone .pnone)
      else if status_code = 403 then
        .ok (WordPressError.init .permissionError message code (.pint status_code) data .pnone .pnone)
      else if status_code = 404 then
        .ok (WordPressError.init .notFoundError message code (.pint status_code) data .pnone .pnone)
      else if status_code = 400 then
        .ok (WordPressError.init .validationError message code (.pint status_code) data .pnone .pnone)
      else if status_code = 429 then
        .ok (WordPressError.init .rateLimitError message code (.pint status_code) data .pnone .pnone)
      else if 500 ≤ status_code then
        .ok (WordPressError.init .serverError message code (.pint status_code) data .pnone .pnone)
      else
        .ok (WordPressError.init .wordPressError message code (.pint status_code) data .pnone .pnone)
  | _ => .error .attributeError

/-- The status-code-to-kind dispatch table of the classifier, stated on its
own for the proofs below (it mirrors the if/elif chain of
`create_exception_from_response`). -/
def dispatchKind (status : Int) : ErrKind :=
  if status = 401 then .authenticationError
  else if status = 403 then .permissionError
  else if status = 404 then .notFoundError
  else if status = 400 then .validationError
  else if status = 429 then .rateLimitError
  else if 500 ≤ status then .serverError
  else .wordPressError

/-- Model of `WordPressError.__str__`: collects the bracketed code (when
`code` is truthy), `HTTP status` (when `status_code` is truthy),
`method endpoint` (when both are truthy) and the message, and joins the
parts with single spaces. -/
def WordPressError.toStr (e : WordPressError) : String :=
  let parts : List String := []
  let parts := if truthy e.code then parts ++ ["[" ++ strObj e.code ++ "]"] else parts
  let parts := if truthy e.status_code then parts ++ ["HTTP " ++ strObj e.status_code] else parts
  let parts :=
    if truthy e.method && truthy e.endpoint then
      parts ++ [strObj e.method ++ " " ++ strObj e.endpoint]
    else parts
  let parts := parts ++ [strObj e.message]
  String.intercalate " " parts

/-- A value stored in the `_params` dict of the builder. -/
inductive QVal where
  | qint (n : Int)
  | qstr (s : String)
  | qintList (xs : List Int)
  | qstrList (xs : List String)
  | qbool (b : Bool)
deriving DecidableEq, Repr

/-- The contents of the `_params` dict of the builder, in insertion order. -/
abbrev Params := List (String × QVal)

/-- Model of a keyed dict assignment: replaces the value of an existing key
in place, otherwise appends the new key at the end (Python dicts keep
insertion order). -/
def setParam (ps : Params) (key : String) (v : QVal) : Params :=
  match ps with
  | [] => [(key, v)]
  | (k, w) :: rest => if k = key then (k, v) :: rest else (k, w) :: setParam rest key v

/-- An argument that Python annotates as a union of int and list of int. -/
inductive IntOrList where
  | single (n : Int)
  | list (xs : List Int)

/-- The promoted list form of such an argument after the
`isinstance(x, int)` promotion of the source. -/
def IntOrList.promote : IntOrList → List Int
  | .single n => [n]
  | .list xs => xs

namespace QueryBuilder

/-- Model of `QueryBuilder.page`: raises `ValueError` when the page number
is below 1, otherwise stores it under `"page"`. -/
def page (ps : Params) (page_num : Int) : Except String Params :=
  if page_num < 1 then .error "页码必须大于0"
  else .ok (setParam ps "page" (.qint page_num))

/-- Model of `QueryBuilder.per_page`: raises `ValueError` when the count is
outside the range from 1 to 100, otherwise stores it under `"per_page"`. -/
def per_page (ps : Params) (count : Int) : Except String Params :=
  if count < 1 ∨ 100 < count then .error "每页数量必须在1-100之间"
  else .ok (setParam ps "per_page" (.qint count))

/-- Model of `QueryBuilder.order_by`: raises `ValueError` unless the
direction is `"asc"` or `"desc"`, otherwise stores the field under
`"orderby"` and the direction under `"order"`. -/
def order_by (ps : Params) (field direction : String) : Except String Params :=
  if direction ∉ (["asc", "desc"] : List String) then
    .error "排序方向必须是 \x27asc\x27 或 \x27desc\x27"
  else .ok (setParam (setParam ps "orderby" (.qstr field)) "order" (.qstr direction))

/-- Model of `QueryBuilder.offset`: stores a non-negative offset under
`"offset"` and silently ignores a negative one. -/
def offset (ps : Params) (offset_count : Int) : Params :=
  if 0 ≤ offset_count then setParam ps "offset" (.qint offset_count) else ps

/-- Model of `QueryBuilder.context`: stores the context under `"context"`
when it is one of view, embed, edit and silently ignores it otherwise. -/
def context (ps : Params) (ctx : String) : Params :=
  if ctx ∈ (["view", "embed", "edit"] : List String) then
    setParam ps "context" (.qstr ctx)
  else ps

/-- Model of `QueryBuilder.author`: promotes a single int to a one-element
list and stores a non-empty (truthy) list under `"author"`. -/
def author (ps : Params) (author_ids : IntOrList) : Params :=
  let ids := author_ids.promote
  if ids.isEmpty then ps else setParam ps "author" (.qintList ids)

/-- Model of `QueryBuilder.author_exclude` (same shape as `author`). -/
def author_exclude (ps : Params) (author_ids : IntOrList) : Params :=
  let ids := author_ids.promote
  if ids.isEmpty then ps else setParam ps "author_exclude" (.qintList ids)

/-- Model of `QueryBuilder.categories` (same shape as `author`). -/
def categories (ps : Params) (category_ids : IntOrList) : Params :=
  let ids := category_ids.promote
  if ids.isEmpty then ps else setParam ps "categories" (.qintList ids)

/-- Model of `QueryBuilder.categories_exclude` (same shape as `author`). -/
def categories_exclude (ps : Params) (category_ids : IntOrList) : Params :=
  let ids := category_ids.promote
  if ids.isEmpty then ps else setParam ps "categories_exclude" (.qintList ids)

/-- Model of `QueryBuilder.tags` (same shape as `author`). -/
def tags (ps : Params) (tag_ids : IntOrList) : Params :=
  let ids := tag_ids.promote
  if ids.isEmpty then ps else setParam ps "tags" (.qintList ids)

/-- Model of `QueryBuilder.tags_exclude` (same shape as `author`). -/
def tags_exclude (ps : Params) (tag_ids : IntOrList) : Params :=
  let ids := tag_ids.promote
  if ids.isEmpty then ps else setParam ps "tags_exclude" (.qintList ids)

/-- Model of `QueryBuilder.parent` (same shape as `author`). -/
def parent (ps : Params) (parent_ids : IntOrList) : Params :=
  let ids := parent_ids.promote
  if ids.isEmpty then ps else setParam ps "parent" (.qintList ids)

/-- Model of `QueryBuilder.parent_exclude` (same shape as `author`). -/
def parent_exclude (ps : Params) (parent_ids : IntOrList) : Params :=
  let ids := parent_ids.promote
  if ids.isEmpty then ps else setParam ps "parent_exclude" (.qintList ids)

/-- Contents of the dict returned by `QueryBuilder.build`: equal to the
accumulated contents of the builder.  The fresh-object aspect of the copy is
modelled separately on the dict heap below. -/
def build (ps : Params) : Params := ps

/-- Model of `QueryBuilder.reset`: clears the accumulated parameters. -/
def reset (_ps : Params) : Params := []

end QueryBuilder

/-- A heap of Python dict objects: object ids mapped to dict contents, with
a bump allocator.  This models object identity, which is what the
`self._params.copy()` in `QueryBuilder.build` is about. -/
structure DictHeap where
  store : Nat → Option Params
  next : Nat

/-- Heap wellformedness: ids at or beyond `next` are unallocated. -/
def DictHeap.wf (h : DictHeap) : Prop := ∀ a, h.next ≤ a → h.store a = none

/-- Allocation of a fresh dict object with the given contents, returning its
id. -/
def DictHeap.alloc (h : DictHeap) (ps : Params) : Nat × DictHeap :=
  (h.next,
    { store := fun a => if a = h.next then some ps else h.store a, next := h.next + 1 })

/-- Keyed assignment into the dict object with id `a` (in-place mutation of
one object; every other object is untouched). -/
def DictHeap.writeKey (h : DictHeap) (a : Nat) (key : String) (v : QVal) : DictHeap :=
  { h with
    store := fun x => if x = a then (h.store x).map (fun ps => setParam ps key v)
             else h.store x }

/-- Heap-level `QueryBuilder.build`: the copy reads the dict of the builder
and allocates a fresh dict with equal contents; the dict of the builder
itself is not written. -/
def QueryBuilder.buildCopy (h : DictHeap) (b : Nat) : Option (Nat × DictHeap) :=
  match h.store b with
  | some ps => some (h.alloc ps)
  | none => none

example : convert_single_enum_or_string (.venum "PostStatus" "PUBLISH" "publish") =
    "publish" := by decide

example : build_comma_separated_param [.venum "PostStatus" "PUBLISH" "publish", .vstr "draft"] =
    "publish,draft" := by decide

example :
    create_exception_from_response 404 (.pdict []) =
      .ok (WordPressError.init .notFoundError (.pstr "未知错误") .pnone (.pint 404)
        (.pdict []) .pnone .pnone) := rfl

example : create_exception_from_response 500 .pnone = .error .attributeError := rfl

example :
    WordPressError.toStr
      { kind := .notFoundError, message := .pstr "gone", code := .pstr "rest_missing",
        status_code := .pint 404, data := .pdict [], endpoint := .pnone, method := .pnone } =
      "[rest_missing] HTTP 404 gone" := rfl

example : QueryBuilder.page [] 0 = .error "页码必须大于0" := rfl

example : QueryBuilder.offset [] (-5) = [] := rfl

/-- Helper: on a mapping body the classifier returns exactly the error built
from the extracted fields and the dispatch table. -/
theorem classify_spec (status : Int) (entries : List (String × PyObj)) :
    create_exception_from_response status (.pdict entries) =
      .ok (WordPressError.init (dispatchKind status)
        (dictGet entries "message" (.pstr "未知错误"))
        (dictGet entries "code" .pnone)
        (.pint status)
        (dictGet entries "data" (.pdict [])) .pnone .pnone) := by
  unfold create_exception_from_response dispatchKind
  split_ifs <;> rfl

/-- Helper: writing a key makes it readable with the written value. -/
theorem lookup_setParam (ps : Params) (key : String) (v : QVal) :
    (setParam ps key v).lookup key = some v := by
  induction ps with
  | nil => simp [setParam, List.lookup]
  | cons p rest ih =>
      obtain ⟨k1, v1⟩ := p
      by_cases h : k1 = key
      · simp [setParam, h, List.lookup]
      · have hne : (key == k1) = false := by simp [Ne.symm h]
        simp [setParam, h, List.lookup, hne, ih]

/-- C1: on any integer status code and any mapping body,
`create_exception_from_response` succeeds with exactly one error kind chosen
purely by the status code with the first-match precedence of the source
(401 Authentication, 403 Permission, 404 NotFound, 400 Validation,
429 RateLimit, at least 500 Server, everything else the Generic base class),
it never produces the Network kind, and the error carries the message, code
and data extracted from the body (`data`, when truthy, is carried exactly as
extracted; a falsy `data` value is normalized to the empty dict by
`__init__`). -/
theorem classify_dispatch (status : Int) (entries : List (String × PyObj)) :
    ∃ e : WordPressError,
      create_exception_from_response status (.pdict entries) = .ok e ∧
      e.message = dictGet entries "message" (.pstr "未知错误") ∧
      e.code = dictGet entries "code" .pnone ∧
      e.status_code = .pint status ∧
      (truthy (dictGet entries "data" (.pdict [])) = true →
        e.data = dictGet entries "data" (.pdict [])) ∧
      e.kind ≠ .networkError ∧
      (status = 401 → e.kind = .authenticationError) ∧
      (status = 403 → e.kind = .permissionError) ∧
      (status = 404 → e.kind = .notFoundError) ∧
      (status = 400 → e.kind = .validationError) ∧
      (status = 429 → e.kind = .rateLimitError) ∧
      (status ≠ 401 → status ≠ 403 → status ≠ 404 → status ≠ 400 → status ≠ 429 →
        500 ≤ status → e.kind = .serverError) ∧
      (status ≠ 401 → status ≠ 403 → status ≠ 404 → status ≠ 400 → status ≠ 429 →
        status < 500 → e.kind = .wordPressError) := by
  refine ⟨_, classify_spec status entries, rfl, rfl, rfl, ?_, ?_, ?_, ?_, ?_, ?_, ?_, ?_, ?_⟩
  · intro h
    simp [WordPressError.init, h]
  · show dispatchKind status ≠ .networkError
    unfold dispatchKind
    split_ifs <;> simp
  · intro h
    simp [WordPressError.init, dispatchKind, h]
  · intro h
    simp [WordPressError.init, dispatchKind, h]
  · intro h
    simp [WordPressError.init, dispatchKind, h]
  · intro h
    simp [WordPressError.init, dispatchKind, h]
  · intro h
    simp [WordPressError.init, dispatchKind, h]
  · intro h1 h2 h3 h4 h5 h6
    simp [WordPressError.init, dispatchKind, h1, h2, h3, h4, h5, h6]
  · intro h1 h2 h3 h4 h5 h6
    have h7 : ¬500 ≤ status := by omega
    simp [WordPressError.init, dispatchKind, h1, h2, h3, h4, h5, h7]

/-- C1 witness: status 401 with a one-key mapping body yields the
Authentication kind carrying the message of the body. -/
theorem classify_dispatch_witness :
    ∃ e : WordPressError,
      create_exception_from_response 401 (.pdict [("message", .pstr "x")]) = .ok e ∧
      e.kind = .authenticationError ∧ e.message = .pstr "x" := by
  obtain ⟨e, hok, hmsg, _, _, _, _, h401, _⟩ :=
    classify_dispatch 401 [("message", .pstr "x")]
  exact ⟨e, hok, h401 rfl, by rw [hmsg]; rfl⟩

/-- C2 counterexample: contrary to the claim, the classifier is not total
over null or non-mapping bodies: at status 500 with body `None` (and with a
plain-string body) the first `.get` raises `AttributeError` instead of
returning an ErrorKind. -/
theorem classify_raises_on_none :
    create_exception_from_response 500 .pnone = .error .attributeError ∧
    create_exception_from_response 500 (.pstr "oops") = .error .attributeError := by
  exact ⟨rfl, rfl⟩

/-- C2 amended: for every integer status code and every body that is a
mapping, the classifier returns an ErrorKind without raising; when the
`"message"` key is absent the message defaults to the non-empty generic
unknown-error string, an absent `"code"` defaults to null and an absent
`"data"` defaults to the empty mapping.  For a body that is null or not a
mapping the classifier raises `AttributeError`. -/
theorem classify_total_on_mappings (status : Int) (entries : List (String × PyObj)) :
    (∃ e : WordPressError,
      create_exception_from_response status (.pdict entries) = .ok e ∧
      (entries.lookup "message" = none → e.message = .pstr "未知错误") ∧
      (entries.lookup "code" = none → e.code = .pnone) ∧
      (entries.lookup "data" = none → e.data = .pdict [])) ∧
    ("未知错误" : String) ≠ "" ∧
    create_exception_from_response status .pnone = .error .attributeError := by
  refine ⟨⟨_, classify_spec status entries, ?_, ?_, ?_⟩, by decide, rfl⟩
  · intro h
    simp [WordPressError.init, dictGet, h]
  · intro h
    simp [WordPressError.init, dictGet, h]
  · intro h
    simp [WordPressError.init, dictGet, h, truthy]

/-- C2 witness: at status 777 and the empty mapping all defaults fire, and
the null body raises. -/
theorem classify_total_on_mappings_witness :
    ∃ e : WordPressError,
      create_exception_from_response 777 (.pdict []) = .ok e ∧
      e.message = .pstr "未知错误" ∧ e.code = .pnone ∧ e.data = .pdict [] ∧
      create_exception_from_response 777 .pnone = .error .attributeError := by
  obtain ⟨⟨e, hok, hmsg, hcode, hdata⟩, -, hnone⟩ := classify_total_on_mappings 777 []
  exact ⟨e, hok, hmsg rfl, hcode rfl, hdata rfl, hnone⟩

/-- C3: the single-value resolver is the identity on raw strings, the
canonical-string projection on enum members, and the generic string
conversion on other accepted inputs such as ints; it is a total Lean
function, hence never raises. -/
theorem resolveOne_cases :
    (∀ s : String, convert_single_enum_or_string (.vstr s) = s) ∧
    (∀ en mn v : String, convert_single_enum_or_string (.venum en mn v) = v) ∧
    (∀ n : Int, convert_single_enum_or_string (.vint n) = pyStrFV (.vint n)) := by
  refine ⟨fun s => rfl, fun en mn v => rfl, fun n => rfl⟩

/-- C4: the list resolver is the elementwise map of the single-value
resolver, preserving length and order; the comma-join function is the
comma-join of the resolved list, the empty list joins to the empty string,
and a two-element list joins to the two resolved elements around one
comma. -/
theorem resolveList_map_join :
    (∀ L : List FilterValue,
        convert_enum_or_string_list L = L.map convert_single_enum_or_string) ∧
    (∀ L : List FilterValue,
        (convert_enum_or_string_list L).length = L.length) ∧
    (build_comma_separated_param [] = "") ∧
    (∀ a b : FilterValue,
        build_comma_separated_param [a, b] =
          convert_single_enum_or_string a ++ "," ++ convert_single_enum_or_string b) := by
  have hmap : ∀ L : List FilterValue,
      convert_enum_or_string_list L = L.map convert_single_enum_or_string := by
    intro L
    induction L with
    | nil => rfl
    | cons x xs ih =>
        cases x <;> simp [convert_enum_or_string_list, convert_single_enum_or_string,
          List.map, ih]
  refine ⟨hmap, ?_, rfl, ?_⟩
  · intro L
    rw [hmap]
    exact List.length_map L convert_single_enum_or_string
  · intro a b
    have hpair : ∀ x y : String, String.intercalate "," [x, y] = x ++ "," ++ y := by
      intro x y
      simp [String.intercalate, String.intercalate.go]
    cases a <;> cases b <;>
      simp [build_comma_separated_param, convert_enum_or_string_list,
        convert_single_enum_or_string, hpair]

/-- C5: calling `build()` twice without intervening mutation returns two
dicts with equal contents that are distinct objects, both distinct from the
internal dict of the builder; `build()` leaves the contents of the builder
unchanged (idempotent, callable any number of times); and writing a key into
either returned dict changes neither the other returned dict nor the
builder. -/
theorem build_copy_independent (h : DictHeap) (b : Nat) (ps : Params)
    (hwf : h.wf) (hb : h.store b = some ps) :
    ∃ a1 h1 a2 h2,
      QueryBuilder.buildCopy h b = some (a1, h1) ∧
      QueryBuilder.buildCopy h1 b = some (a2, h2) ∧
      h2.store a1 = some ps ∧
      h2.store a2 = some ps ∧
      a1 ≠ a2 ∧ a1 ≠ b ∧ a2 ≠ b ∧
      h2.store b = some ps ∧
      ∀ (key : String) (v : QVal),
        (h2.writeKey a1 key v).store a2 = some ps ∧
        (h2.writeKey a1 key v).store b = some ps ∧
        (h2.writeKey a2 key v).store a1 = some ps ∧
        (h2.writeKey a2 key v).store b = some ps := by
  have hblt : b < h.next := by
    by_contra hge
    rw [hwf b (by omega)] at hb
    exact Option.noConfusion hb
  refine ⟨h.next, (h.alloc ps).2, h.next + 1, ((h.alloc ps).2.alloc ps).2, ?_, ?_, ?_, ?_,
    by omega, by omega, by omega, ?_, ?_⟩
  · simp [QueryBuilder.buildCopy, hb, DictHeap.alloc]
  · simp [QueryBuilder.buildCopy, DictHeap.alloc, show b ≠ h.next by omega, hb]
  · simp [DictHeap.alloc, show h.next ≠ h.next + 1 by omega]
  · simp [DictHeap.alloc]
  · simp [DictHeap.alloc, show b ≠ h.next + 1 by omega, show b ≠ h.next by omega, hb]
  · intro key v
    refine ⟨?_, ?_, ?_, ?_⟩ <;>
      simp [DictHeap.writeKey, DictHeap.alloc, show b ≠ h.next + 1 by omega,
        show b ≠ h.next by omega, show h.next ≠ h.next + 1 by omega,
        show h.next + 1 ≠ h.next by omega, hb]

/-- C5 witness: the guarantees at a concrete one-entry builder heap. -/
theorem build_copy_independent_witness :
    ∃ a1 h1 a2 h2,
      QueryBuilder.buildCopy
        ⟨fun a => if a = 0 then some [("page", QVal.qint 1)] else none, 1⟩ 0 =
        some (a1, h1) ∧
      QueryBuilder.buildCopy h1 0 = some (a2, h2) ∧
      h2.store a1 = some [("page", QVal.qint 1)] ∧
      h2.store a2 = some [("page", QVal.qint 1)] ∧
      a1 ≠ a2 ∧ a1 ≠ 0 ∧ a2 ≠ 0 ∧
      h2.store 0 = some [("page", QVal.qint 1)] ∧
      ∀ (key : String) (v : QVal),
        (h2.writeKey a1 key v).store a2 = some [("page", QVal.qint 1)] ∧
        (h2.writeKey a1 key v).store 0 = some [("page", QVal.qint 1)] ∧
        (h2.writeKey a2 key v).store a1 = some [("page", QVal.qint 1)] ∧
        (h2.writeKey a2 key v).store 0 = some [("page", QVal.qint 1)] := by
  refine build_copy_independent
    ⟨fun a => if a = 0 then some [("page", QVal.qint 1)] else none, 1⟩ 0
    [("page", QVal.qint 1)] ?_ (by simp)
  intro a ha
  have h1 : 1 ≤ a := ha
  simp [show a ≠ 0 by omega]

/-- C6: the validating setters fail fast with the `ValueError` of the source
(the `InvalidArgument` of the spec) exactly on their out-of-range side:
`page` errors iff the page is below 1, `per_page` errors iff the count is
outside the range from 1 to 100, `order_by` errors iff the direction is
neither `"asc"` nor `"desc"`; on the non-raising side each succeeds and
stores the value under its parameter key. -/
theorem builder_validation :
    (∀ (ps : Params) (n : Int), n < 1 → ∃ msg, QueryBuilder.page ps n = .error msg) ∧
    (∀ (ps : Params) (n : Int), 1 ≤ n →
        QueryBuilder.page ps n = .ok (setParam ps "page" (.qint n)) ∧
        ∃ qs, QueryBuilder.page ps n = .ok qs ∧ qs.lookup "page" = some (.qint n)) ∧
    (∀ (ps : Params) (n : Int), n < 1 ∨ 100 < n →
        ∃ msg, QueryBuilder.per_page ps n = .error msg) ∧
    (∀ (ps : Params) (n : Int), 1 ≤ n → n ≤ 100 →
        QueryBuilder.per_page ps n = .ok (setParam ps "per_page" (.qint n)) ∧
        ∃ qs, QueryBuilder.per_page ps n = .ok qs ∧ qs.lookup "per_page" = some (.qint n)) ∧
    (∀ (ps : Params) (field direction : String),
        direction ≠ "asc" → direction ≠ "desc" →
        ∃ msg, QueryBuilder.order_by ps field direction = .error msg) ∧
    (∀ (ps : Params) (field direction : String),
        direction = "asc" ∨ direction = "desc" →
        ∃ qs, QueryBuilder.order_by ps field direction = .ok qs ∧
          qs.lookup "order" = some (.qstr direction) ∧
          qs = setParam (setParam ps "orderby" (.qstr field)) "order" (.qstr direction)) := by
  refine ⟨?_, ?_, ?_, ?_, ?_, ?_⟩
  · intro ps n h
    exact ⟨"页码必须大于0", by simp [QueryBuilder.page, h]⟩
  · intro ps n h
    have hlt : ¬n < 1 := by omega
    exact ⟨by simp [QueryBuilder.page, hlt], _, by simp [QueryBuilder.page, hlt],
      lookup_setParam ps "page" (.qint n)⟩
  · intro ps n h
    exact ⟨"每页数量必须在1-100之间", by simp [QueryBuilder.per_page, h]⟩
  · intro ps n h1 h2
    have hrange : ¬(n < 1 ∨ 100 < n) := by omega
    exact ⟨by simp [QueryBuilder.per_page, hrange], _,
      by simp [QueryBuilder.per_page, hrange], lookup_setParam ps "per_page" (.qint n)⟩
  · intro ps field direction h1 h2
    exact ⟨"排序方向必须是 \x27asc\x27 或 \x27desc\x27",
      by simp [QueryBuilder.order_by, h1, h2]⟩
  · intro ps field direction h
    have hmem : direction ∈ (["asc", "desc"] : List String) := by
      rcases h with h | h <;> simp [h]
    refine ⟨_, by simp [QueryBuilder.order_by, hmem], ?_, rfl⟩
    exact lookup_setParam _ "order" (.qstr direction)

/-- C6 witness: page 0, per-page 0, per-page 101 and direction `"bogus"`
raise; page 1, per-page 100 and direction `"asc"` succeed and store. -/
theorem builder_validation_witness :
    (∃ msg, QueryBuilder.page [] 0 = .error msg) ∧
    (∃ msg, QueryBuilder.per_page [] 0 = .error msg) ∧
    (∃ msg, QueryBuilder.per_page [] 101 = .error msg) ∧
    (∃ msg, QueryBuilder.order_by [] "date" "bogus" = .error msg) ∧
    QueryBuilder.page [] 1 = .ok (setParam [] "page" (.qint 1)) ∧
    QueryBuilder.per_page [] 100 = .ok (setParam [] "per_page" (.qint 100)) ∧
    (∃ qs, QueryBuilder.order_by [] "date" "asc" = .ok qs ∧
      qs.lookup "order" = some (.qstr "asc")) := by
  obtain ⟨hp, hpok, hpp, hppok, hob, hobok⟩ := builder_validation
  refine ⟨hp [] 0 (by omega), hpp [] 0 (Or.inl (by omega)), hpp [] 101 (Or.inr (by omega)),
    hob [] "date" "bogus" (by decide) (by decide), (hpok [] 1 (by omega)).1,
    (hppok [] 100 (by omega) (by omega)).1, ?_⟩
  obtain ⟨qs, hok, hlk, -⟩ := hobok [] "date" "asc" (Or.inl rfl)
  exact ⟨qs, hok, hlk⟩

/-- C7: every single-int-or-list setter promotes a single integer to a
one-element list before storing it under its parameter key, and an empty
list argument is a silent no-op that leaves the parameters unchanged; in
particular building after `categories([])` yields no `"categories"` key
while building after `categories(7)` yields the one-element list under
`"categories"`. -/
theorem intOrList_setters :
    (∀ (ps : Params) (n : Int),
        (QueryBuilder.author ps (.single n)).lookup "author" = some (.qintList [n]) ∧
        QueryBuilder.author ps (.list []) = ps) ∧
    (∀ (ps : Params) (n : Int),
        (QueryBuilder.author_exclude ps (.single n)).lookup "author_exclude" =
          some (.qintList [n]) ∧
        QueryBuilder.author_exclude ps (.list []) = ps) ∧
    (∀ (ps : Params) (n : Int),
        (QueryBuilder.categories ps (.single n)).lookup "categories" =
          some (.qintList [n]) ∧
        QueryBuilder.categories ps (.list []) = ps) ∧
    (∀ (ps : Params) (n : Int),
        (QueryBuilder.categories_exclude ps (.single n)).lookup "categories_exclude" =
          some (.qintList [n]) ∧
        QueryBuilder.categories_exclude ps (.list []) = ps) ∧
    (∀ (ps : Params) (n : Int),
        (QueryBuilder.tags ps (.single n)).lookup "tags" = some (.qintList [n]) ∧
        QueryBuilder.tags ps (.list []) = ps) ∧
    (∀ (ps : Params) (n : Int),
        (QueryBuilder.tags_exclude ps (.single n)).lookup "tags_exclude" =
          some (.qintList [n]) ∧
        QueryBuilder.tags_exclude ps (.list []) = ps) ∧
    (∀ (ps : Params) (n : Int),
        (QueryBuilder.parent ps (.single n)).lookup "parent" = some (.qintList [n]) ∧
        QueryBuilder.parent ps (.list []) = ps) ∧
    (∀ (ps : Params) (n : Int),
        (QueryBuilder.parent_exclude ps (.single n)).lookup "parent_exclude" =
          some (.qintList [n]) ∧
        QueryBuilder.parent_exclude ps (.list []) = ps) ∧
    (QueryBuilder.build (QueryBuilder.categories [] (.list []))).lookup "categories" =
      none ∧
    (QueryBuilder.build (QueryBuilder.categories [] (.single 7))).lookup "categories" =
      some (.qintList [7]) := by
  refine ⟨?_, ?_, ?_, ?_, ?_, ?_, ?_, ?_, rfl, rfl⟩ <;>
    exact fun ps n =>
      ⟨by simp [QueryBuilder.author, QueryBuilder.author_exclude, QueryBuilder.categories,
          QueryBuilder.categories_exclude, QueryBuilder.tags, QueryBuilder.tags_exclude,
          QueryBuilder.parent, QueryBuilder.parent_exclude, IntOrList.promote,
          lookup_setParam],
        by simp [QueryBuilder.author, QueryBuilder.author_exclude, QueryBuilder.categories,
          QueryBuilder.categories_exclude, QueryBuilder.tags, QueryBuilder.tags_exclude,
          QueryBuilder.parent, QueryBuilder.parent_exclude, IntOrList.promote]⟩

/-- C8: the context setter never raises (it is a total Lean function); a
context in exactly view, embed, edit is stored under `"context"`, and any
other string silently leaves the accumulated parameters unchanged. -/
theorem context_silent :
    (∀ (ps : Params) (ctx : String), ctx = "view" ∨ ctx = "embed" ∨ ctx = "edit" →
        QueryBuilder.context ps ctx = setParam ps "context" (.qstr ctx) ∧
        (QueryBuilder.context ps ctx).lookup "context" = some (.qstr ctx)) ∧
    (∀ (ps : Params) (ctx : String), ctx ≠ "view" → ctx ≠ "embed" → ctx ≠ "edit" →
        QueryBuilder.context ps ctx = ps) := by
  constructor
  · intro ps ctx h
    have hmem : ctx ∈ (["view", "embed", "edit"] : List String) := by
      rcases h with h | h | h <;> simp [h]
    exact ⟨by simp [QueryBuilder.context, hmem],
      by simp [QueryBuilder.context, hmem, lookup_setParam]⟩
  · intro ps ctx h1 h2 h3
    simp [QueryBuilder.context, h1, h2, h3]

/-- C8 witness: the view context is stored; a bogus context is a no-op. -/
theorem context_silent_witness :
    (QueryBuilder.context [] "view").lookup "context" = some (.qstr "view") ∧
    QueryBuilder.context [("page", QVal.qint 1)] "bogus" = [("page", QVal.qint 1)] := by
  exact ⟨(context_silent.1 [] "view" (Or.inl rfl)).2,
    context_silent.2 [("page", QVal.qint 1)] "bogus" (by decide) (by decide) (by decide)⟩

/-- C9: a `WordPressError` whose code and status are present (truthy)
stringifies to the bracketed code, then the spaced HTTP status, then
(possibly after the method/endpoint part) the message, so the machine code
appears before the HTTP status and the HTTP status before the human message;
and an error carrying only a non-empty message stringifies exactly to that
message, which is a non-empty string containing it. -/
theorem errorString_order :
    (∀ (k : ErrKind) (c : String) (s : Int) (m : String) (mth ep dat : PyObj),
        c ≠ "" → s ≠ 0 →
        ∃ mid : String,
          WordPressError.toStr
            { kind := k, message := .pstr m, code := .pstr c, status_code := .pint s,
              data := dat, endpoint := ep, method := mth } =
            "[" ++ c ++ "]" ++ " " ++ "HTTP " ++ toString s ++ mid ++ " " ++ m) ∧
    (∀ (k : ErrKind) (m : String) (dat : PyObj), m ≠ "" →
        WordPressError.toStr
          { kind := k, message := .pstr m, code := .pnone, status_code := .pnone,
            data := dat, endpoint := .pnone, method := .pnone } = m) := by
  constructor
  · intro k c s m mth ep dat hc hs
    refine ⟨if truthy mth && truthy ep then " " ++ strObj mth ++ " " ++ strObj ep else "", ?_⟩
    have hct : truthy (.pstr c) = true := by simp [truthy, hc]
    have hst : truthy (.pint s) = true := by simp [truthy, hs]
    unfold WordPressError.toStr
    simp only [hct, hst, if_true]
    split_ifs with hme <;>
      simp [String.intercalate, String.intercalate.go, strObj, reprObj,
        String.append_assoc] <;>
      rw [← String.append_assoc ("] ") ("HTTP "),
        (by decide : ("] " : String) ++ "HTTP " = "] HTTP ")]
  · intro k m dat hm
    unfold WordPressError.toStr
    simp [truthy, String.intercalate, String.intercalate.go, strObj]

/-- C9 witness: both parts at concrete errors. -/
theorem errorString_order_witness :
    (∃ mid : String,
      WordPressError.toStr
        { kind := .notFoundError, message := .pstr "gone", code := .pstr "rest_missing",
          status_code := .pint 404, data := .pdict [], endpoint := .pnone,
          method := .pnone } =
        "[" ++ "rest_missing" ++ "]" ++ " " ++ "HTTP " ++ toString (404 : Int) ++
          mid ++ " " ++ "gone") ∧
    WordPressError.toStr
      { kind := .wordPressError, message := .pstr "just a message", code := .pnone,
        status_code := .pnone, data := .pdict [], endpoint := .pnone, method := .pnone } =
      "just a message" := by
  constructor
  · exact errorString_order.1 .notFoundError "rest_missing" 404 "gone" .pnone .pnone
      (.pdict []) (by decide) (by decide)
  · exact errorString_order.2 .wordPressError "just a message" (.pdict []) (by decide)

/-- C10: the offset setter silently ignores invalid input instead of
raising: a non-negative offset is stored under `"offset"` and a negative
offset leaves the accumulated parameters unchanged. -/
theorem offset_silent :
    (∀ (ps : Params) (n : Int), 0 ≤ n →
        QueryBuilder.offset ps n = setParam ps "offset" (.qint n) ∧
        (QueryBuilder.offset ps n).lookup "offset" = some (.qint n)) ∧
    (∀ (ps : Params) (n : Int), n < 0 → QueryBuilder.offset ps n = ps) := by
  constructor
  · intro ps n h
    exact ⟨by simp [QueryBuilder.offset, h], by simp [QueryBuilder.offset, h, lookup_setParam]⟩
  · intro ps n h
    have : ¬0 ≤ n := by omega
    simp [QueryBuilder.offset, this]

/-- C10 witness: offset 5 is stored; offset minus one is a no-op. -/
theorem offset_silent_witness :
    (QueryBuilder.offset [] 5).lookup "offset" = some (.qint 5) ∧
    QueryBuilder.offset [("page", QVal.qint 1)] (-1) = [("page", QVal.qint 1)] := by
  exact ⟨(offset_silent.1 [] 5 (by omega)).2,
    offset_silent.2 [("page", QVal.qint 1)] (-1) (by omega)⟩

end WpPython
